import Mathlib

/-
Verification of the COVID-19 economic impact simulation script
(src/economic_impact_analysis.py).

The script is a single linear pipeline: simulate N business records
(sector, pre-COVID revenue, drop factor, post-COVID revenue), derive a
decline percentage, export a CSV table and four charts.

Shallow embedding conventions:
  * floating-point values are modelled as rationals (ℚ);
  * the seeded numpy generator is modelled as an abstract deterministic
    stream of draw results indexed by draw position (`RawStream`); the
    script consumes it in the fixed order sectors, then normals, then
    uniforms, each as one batched draw of length N (`drawsOfStream`);
  * the support of each distribution (e.g. numpy uniform's half-open
    interval) appears as a hypothesis on the drawn values;
  * the filesystem side effects of the setup step (directory creation and
    progress printing) are modelled as a pure state transformer on `FS`.
-/

namespace CovidImpact

/-- Business sector categories, source line 40:
`sectors = ["Retail", "Hospitality", "Manufacturing", "Services", "Healthcare"]`. -/
inductive Sector
  | Retail
  | Hospitality
  | Manufacturing
  | Services
  | Healthcare
deriving DecidableEq

/-- The fixed 5-element sector list of source line 40. -/
def sectors : List Sector :=
  [Sector.Retail, Sector.Hospitality, Sector.Manufacturing, Sector.Services, Sector.Healthcare]

/-- Record count, source line 39: `n_businesses = 1000`. -/
def n_businesses : ℕ := 1000

/-- `np.clip(x, lo, None)` elementwise: values below `lo` are raised to `lo`,
no upper bound (source line 48). -/
def npClip (x lo : ℚ) : ℚ := max x lo

/-- The raw sampled values one run consumes: one sector draw, one normal draw
and one uniform draw per record. The distribution supports are stated as
hypotheses in theorems, not baked into the type. -/
structure Draws (n : ℕ) where
  sectorDraw : Fin n → Sector
  normalDraw : Fin n → ℚ
  uniformDraw : Fin n → ℚ

/-- `business_ids = np.arange(1, n_businesses + 1)` (source line 43). -/
def business_ids (n : ℕ) : List ℕ := (List.range n).map (fun k => k + 1)

/-- Pre-COVID revenue after clamping, source lines 47-48:
normal draw, then `np.clip(pre_covid_revenue, 100, None)`. -/
def pre_covid_revenue {n : ℕ} (d : Draws n) : Fin n → ℚ :=
  fun i => npClip (d.normalDraw i) 100

/-- The drop factors are the uniform draws, source line 51. -/
def drop_factors {n : ℕ} (d : Draws n) : Fin n → ℚ := d.uniformDraw

/-- Numpy elementwise array product. -/
def npMul {n : ℕ} (a b : Fin n → ℚ) : Fin n → ℚ := fun i => a i * b i

/-- `post_covid_revenue = pre_covid_revenue * drop_factors` (source line 52). -/
def post_covid_revenue {n : ℕ} (d : Draws n) : Fin n → ℚ :=
  npMul (pre_covid_revenue d) (drop_factors d)

/-- `df["decline_percent"] = ((pre - post) / pre) * 100` (source lines 63-64). -/
def decline_percent {n : ℕ} (d : Draws n) : Fin n → ℚ :=
  fun i =>
    (pre_covid_revenue d i - post_covid_revenue d i) / pre_covid_revenue d i * 100

/-- One row of the DataFrame built on source lines 55-64: the four columns of
the `pd.DataFrame` constructor plus the derived `decline_percent` column.
`drop_factors` is never added as a column. -/
structure BusinessRecord where
  business_id : ℕ
  sector : Sector
  pre_covid_revenue : ℚ
  post_covid_revenue : ℚ
  decline_percent : ℚ
deriving DecidableEq

/-- The DataFrame `df` as a list of records in insertion order
(source lines 55-64). -/
def df {n : ℕ} (d : Draws n) : List BusinessRecord :=
  (List.finRange n).map fun i =>
    { business_id := i.val + 1
      sector := d.sectorDraw i
      pre_covid_revenue := pre_covid_revenue d i
      post_covid_revenue := post_covid_revenue d i
      decline_percent := decline_percent d i }

/-- Column names of the table written by `df.to_csv(csv_path, index=False)`
(source line 68): the DataFrame columns in insertion order, no index column. -/
def csvHeader : List String :=
  ["business_id", "sector", "pre_covid_revenue", "post_covid_revenue", "decline_percent"]

/-- Number of text lines of the exported CSV: one header row plus one row per
record (`to_csv` with `index=False`, source line 68). -/
def csvLineCount {n : ℕ} (d : Draws n) : ℕ := 1 + (df d).length

/-- The seeded numpy generator as a deterministic stream of draw results,
indexed by draw position within the run. `np.random.seed(42)` (source line 30)
fixes this stream; the script then consumes positions in order. -/
structure RawStream where
  choice : ℕ → Fin 5
  normal : ℕ → ℚ
  uniform : ℕ → ℚ

/-- Look a sector up in the fixed 5-element list. -/
def sectorOfIndex (j : Fin 5) : Sector :=
  sectors.get (Fin.cast (show (5 : ℕ) = sectors.length from rfl) j)

/-- One run's draws, read off the seeded stream in the fixed source order:
sector assignment first (positions `0..n-1`, source line 44), then pre-shock
normals (positions `n..2n-1`, source line 47), then uniform drop factors
(positions `2n..3n-1`, source line 51) — each one batched draw of length `n`. -/
def drawsOfStream (u : RawStream) (n : ℕ) : Draws n where
  sectorDraw := fun i => sectorOfIndex (u.choice i.val)
  normalDraw := fun i => u.normal (n + i.val)
  uniformDraw := fun i => u.uniform (2 * n + i.val)

/-- The sector column as a sequence. -/
def sectorsList {n : ℕ} (d : Draws n) : List Sector :=
  (List.finRange n).map d.sectorDraw

/-- The pre-COVID revenue column as a sequence. -/
def preList {n : ℕ} (d : Draws n) : List ℚ :=
  (List.finRange n).map (pre_covid_revenue d)

/-- The drop factor sequence. -/
def dropList {n : ℕ} (d : Draws n) : List ℚ :=
  (List.finRange n).map (drop_factors d)

/-- The post-COVID revenue column as a sequence. -/
def postList {n : ℕ} (d : Draws n) : List ℚ :=
  (List.finRange n).map (post_covid_revenue d)

/-- One step of the grouped aggregation behind
`df.groupby("sector")["decline_percent"].mean()` (source line 96): a single
pass accumulating the running sum and count of the group's values. -/
def groupStep (s : Sector) (acc : ℚ × ℕ) (r : BusinessRecord) : ℚ × ℕ :=
  if r.sector = s then (acc.1 + r.decline_percent, acc.2 + 1) else acc

/-- The per-sector mean decline the bar chart plots,
`avg_decline = df.groupby("sector")["decline_percent"].mean()`
(source line 96), computed as grouped sum over grouped count. -/
def avg_decline {n : ℕ} (d : Draws n) (s : Sector) : ℚ :=
  let acc := (df d).foldl (groupStep s) (0, 0)
  acc.1 / (acc.2 : ℚ)

/-- Modelled from the spec: the independent recomputation the spec asks to
compare against — the arithmetic mean of `decline_percent` restricted to
exactly the records belonging to sector `s`. -/
def meanDeclineOfSector {n : ℕ} (d : Draws n) (s : Sector) : ℚ :=
  let g := (df d).filter (fun r => r.sector = s)
  (g.map (fun r => r.decline_percent)).sum / (g.length : ℚ)

/-- A concrete seeded stream used to instantiate determinism statements. -/
def streamA : RawStream :=
  { choice := fun _ => 0, normal := fun _ => 7, uniform := fun _ => 1 / 2 }

/-- A second concrete stream that agrees with `streamA` on every position a
one-record run consumes, and differs beyond them. -/
def streamB : RawStream :=
  { choice := fun _ => 0
    normal := fun i => if i < 2 then 7 else 9
    uniform := fun i => if i < 3 then 1 / 2 else 0 }

/-- The fixed output directory, source line 33. -/
def output_dir : String := "output_images"

/-- The progress line printed when the directory is created, source line 36. -/
def creationMessage : String := "Created output directory: output_images"

/-- Filesystem-and-console state relevant to the setup step: the set of
existing directories and the printed progress lines. -/
structure FS where
  dirs : List String
  printed : List String
deriving DecidableEq

/-- The setup step, source lines 34-36: if the output directory does not
exist, create it and print the creation message; otherwise do nothing. -/
def setupOutputDir (fs : FS) : FS :=
  if output_dir ∉ fs.dirs then
    { dirs := fs.dirs ++ [output_dir], printed := fs.printed ++ [creationMessage] }
  else fs

/-! ### Helper lemmas -/

/-- The clamp of source line 48 makes every pre-COVID revenue positive. -/
lemma pre_covid_revenue_pos {n : ℕ} (d : Draws n) (i : Fin n) :
    0 < pre_covid_revenue d i := by
  unfold pre_covid_revenue npClip
  exact lt_of_lt_of_le (by norm_num) (le_max_right _ _)

/-- Closed form of the decline percentage: since pre-COVID revenue is
nonzero, the ratio collapses to `(1 - drop factor) * 100`. -/
lemma decline_percent_eq {n : ℕ} (d : Draws n) (i : Fin n) :
    decline_percent d i = (1 - drop_factors d i) * 100 := by
  have hp : pre_covid_revenue d i ≠ 0 := ne_of_gt (pre_covid_revenue_pos d i)
  unfold decline_percent post_covid_revenue npMul
  field_simp
  ring

/-- A single left fold with `groupStep s` accumulates exactly the sum and the
count of the `decline_percent` values of the records whose sector is `s`. -/
lemma foldl_groupStep (s : Sector) (l : List BusinessRecord) (a : ℚ) (c : ℕ) :
    l.foldl (groupStep s) (a, c) =
      (a + ((l.filter (fun r => r.sector = s)).map (fun r => r.decline_percent)).sum,
        c + (l.filter (fun r => r.sector = s)).length) := by
  induction l generalizing a c with
  | nil => simp
  | cons r t ih =>
    by_cases h : r.sector = s
    · simp only [List.foldl_cons, groupStep, if_pos h, List.filter_cons,
        decide_eq_true h, if_true, List.map_cons, List.sum_cons, List.length_cons, ih,
        Prod.mk.injEq]
      constructor
      · ring
      · omega
    · simp only [List.foldl_cons, groupStep, if_neg h, List.filter_cons,
        decide_eq_false h, Bool.false_eq_true, if_false, ih]

/-! ### Claim theorems -/

/-- C1: for every generated record, if its drop factor lies in [0.3, 1.0]
(the support of Uniform(0.3, 1.0)), then the derived decline percentage lies
in the closed interval [0, 70]. -/
theorem decline_percent_mem_zero_seventy {n : ℕ} (d : Draws n) (i : Fin n)
    (hlo : 3 / 10 ≤ drop_factors d i) (hhi : drop_factors d i ≤ 1) :
    0 ≤ decline_percent d i ∧ decline_percent d i ≤ 70 := by
  rw [decline_percent_eq]
  constructor <;> nlinarith

/-- Witness for C1 at a concrete single-record run with drop factor 1/2. -/
theorem decline_percent_mem_zero_seventy_witness :
    (3 / 10 ≤ drop_factors (Draws.mk (n := 1) (fun _ => Sector.Retail)
        (fun _ => 400) (fun _ => 1 / 2)) 0 ∧
      drop_factors (Draws.mk (n := 1) (fun _ => Sector.Retail)
        (fun _ => 400) (fun _ => 1 / 2)) 0 ≤ 1) ∧
    (0 ≤ decline_percent (Draws.mk (n := 1) (fun _ => Sector.Retail)
        (fun _ => 400) (fun _ => 1 / 2)) 0 ∧
      decline_percent (Draws.mk (n := 1) (fun _ => Sector.Retail)
        (fun _ => 400) (fun _ => 1 / 2)) 0 ≤ 70) :=
  ⟨⟨by norm_num [drop_factors], by norm_num [drop_factors]⟩,
    decline_percent_mem_zero_seventy _ 0 (by norm_num [drop_factors])
      (by norm_num [drop_factors])⟩

/-- C2: post-COVID revenue is the elementwise product of pre-COVID revenue
and the drop factors (source line 52), exactly in the rational model. -/
theorem post_eq_pre_mul_drop {n : ℕ} (d : Draws n) (i : Fin n) :
    post_covid_revenue d i = pre_covid_revenue d i * drop_factors d i := rfl

/-- C3: pre-COVID revenue is the normal draw clamped from below at 100
(`max` with no upper bound), hence every record's value is at least 100. -/
theorem pre_covid_revenue_ge_hundred {n : ℕ} (d : Draws n) (i : Fin n) :
    pre_covid_revenue d i = max (d.normalDraw i) 100 ∧
      100 ≤ pre_covid_revenue d i :=
  ⟨rfl, le_max_right _ _⟩

/-- C4: the metric deriver computes `(pre - post) / pre * 100`, and the
division is safe: the divisor is nonzero for every record (the clamp made it
at least 100), so the computed value genuinely satisfies the division
equation `decline * pre = (pre - post) * 100`. -/
theorem decline_percent_division_safe {n : ℕ} (d : Draws n) (i : Fin n) :
    pre_covid_revenue d i ≠ 0 ∧
      decline_percent d i =
        (pre_covid_revenue d i - post_covid_revenue d i) / pre_covid_revenue d i * 100 ∧
      decline_percent d i * pre_covid_revenue d i =
        (pre_covid_revenue d i - post_covid_revenue d i) * 100 := by
  have hp : pre_covid_revenue d i ≠ 0 := ne_of_gt (pre_covid_revenue_pos d i)
  refine ⟨hp, rfl, ?_⟩
  unfold decline_percent
  field_simp

/-- C5: the exported table has exactly `n` data rows plus one header row, its
`business_id` column is exactly `1..n` in insertion order with no duplicates,
and the serialized columns are exactly `business_id, sector,
pre_covid_revenue, post_covid_revenue, decline_percent` — `drop_factor` is
not among them. -/
theorem csv_shape {n : ℕ} (d : Draws n) :
    csvLineCount d = n + 1 ∧
      (df d).map (fun r => r.business_id) = business_ids n ∧
      business_ids n = (List.range n).map (fun k => k + 1) ∧
      ((df d).map (fun r => r.business_id)).Nodup ∧
      csvHeader =
        ["business_id", "sector", "pre_covid_revenue", "post_covid_revenue",
          "decline_percent"] ∧
      "drop_factor" ∉ csvHeader := by
  have hcol : (df d).map (fun r => r.business_id) = business_ids n := by
    simp only [df, business_ids, List.map_map]
    rw [← List.map_coe_finRange n, List.map_map]
    rfl
  refine ⟨?_, hcol, rfl, ?_, rfl, ?_⟩
  · simp [csvLineCount, df]
    omega
  · rw [hcol]
    exact (List.nodup_range n).map (fun a b h => by omega)
  · simp [csvHeader]

/-- C6: the run is deterministic in the seeded stream: the simulator reads
the stream only at the fixed batched positions — sector draws at `0..n-1`,
then normal draws at `n..2n-1`, then uniform draws at `2n..3n-1` — so two
runs over streams that agree on those positions (as two runs under the same
seed do) produce identical sector, pre-COVID revenue, and drop factor
sequences. -/
theorem seeded_run_deterministic (n : ℕ) (u v : RawStream)
    (hc : ∀ i, i < n → u.choice i = v.choice i)
    (hn : ∀ i, n ≤ i → i < 2 * n → u.normal i = v.normal i)
    (hu : ∀ i, 2 * n ≤ i → i < 3 * n → u.uniform i = v.uniform i) :
    sectorsList (drawsOfStream u n) = sectorsList (drawsOfStream v n) ∧
      preList (drawsOfStream u n) = preList (drawsOfStream v n) ∧
      dropList (drawsOfStream u n) = dropList (drawsOfStream v n) := by
  refine ⟨?_, ?_, ?_⟩
  · unfold sectorsList
    refine List.map_congr_left fun i _ => ?_
    show sectorOfIndex (u.choice i.val) = sectorOfIndex (v.choice i.val)
    rw [hc i.val i.isLt]
  · unfold preList
    refine List.map_congr_left fun i _ => ?_
    show npClip (u.normal (n + i.val)) 100 = npClip (v.normal (n + i.val)) 100
    rw [hn (n + i.val) (Nat.le_add_right _ _) (by have hi := i.isLt; omega)]
  · unfold dropList
    refine List.map_congr_left fun i _ => ?_
    show u.uniform (2 * n + i.val) = v.uniform (2 * n + i.val)
    rw [hu (2 * n + i.val) (Nat.le_add_right _ _) (by have hi := i.isLt; omega)]

/-- Witness for C6: two concrete streams that agree on the three consumed
batches of a one-record run yield identical simulated sequences. -/
theorem seeded_run_deterministic_witness :
    ((∀ i, i < 1 → streamA.choice i = streamB.choice i) ∧
      (∀ i, 1 ≤ i → i < 2 * 1 → streamA.normal i = streamB.normal i) ∧
      (∀ i, 2 * 1 ≤ i → i < 3 * 1 → streamA.uniform i = streamB.uniform i)) ∧
    (sectorsList (drawsOfStream streamA 1) = sectorsList (drawsOfStream streamB 1) ∧
      preList (drawsOfStream streamA 1) = preList (drawsOfStream streamB 1) ∧
      dropList (drawsOfStream streamA 1) = dropList (drawsOfStream streamB 1)) := by
  have hc : ∀ i, i < 1 → streamA.choice i = streamB.choice i := fun i _ => rfl
  have hn : ∀ i, 1 ≤ i → i < 2 * 1 → streamA.normal i = streamB.normal i := by
    intro i h1 h2
    have hi : i = 1 := by omega
    subst hi
    rfl
  have hu : ∀ i, 2 * 1 ≤ i → i < 3 * 1 → streamA.uniform i = streamB.uniform i := by
    intro i h1 h2
    have hi : i = 2 := by omega
    subst hi
    rfl
  exact ⟨⟨hc, hn, hu⟩, seeded_run_deterministic 1 streamA streamB hc hn hu⟩

/-- C7: the bar chart's per-sector aggregate — the grouped mean computed by a
single accumulating pass over the table — equals the arithmetic mean of
`decline_percent` over exactly the records of that sector, recomputed
independently by filtering. -/
theorem avg_decline_eq_mean_of_sector {n : ℕ} (d : Draws n) (s : Sector) :
    avg_decline d s = meanDeclineOfSector d s := by
  unfold avg_decline meanDeclineOfSector
  rw [foldl_groupStep]
  simp

/-- C8: the simulator has no failure case: for every record count `n`
(including `n = 0`) every simulated sequence and the assembled table have
exactly `n` entries. -/
theorem simulator_total {n : ℕ} (d : Draws n) :
    (sectorsList d).length = n ∧ (preList d).length = n ∧
      (dropList d).length = n ∧ (postList d).length = n ∧
      (df d).length = n := by
  refine ⟨?_, ?_, ?_, ?_, ?_⟩ <;>
    simp [sectorsList, preList, dropList, postList, df]

/-- C9: strict decline. With the drop factor in numpy uniform's half-open
support `[0.3, 1.0)` — the high endpoint excluded — every record declines
strictly: `decline_percent > 0` and post-COVID revenue is strictly below
pre-COVID revenue, so the lower bound 0 of the spec's interval is never
attained. -/
theorem decline_strictly_positive {n : ℕ} (d : Draws n) (i : Fin n)
    (_hlo : 3 / 10 ≤ drop_factors d i) (hhi : drop_factors d i < 1) :
    0 < decline_percent d i ∧ post_covid_revenue d i < pre_covid_revenue d i := by
  constructor
  · rw [decline_percent_eq]
    nlinarith
  · have hpre := pre_covid_revenue_pos d i
    have h := mul_lt_mul_of_pos_left hhi hpre
    rw [mul_one] at h
    simpa [post_covid_revenue, npMul, mul_comm] using h

/-- Witness for C9 at a concrete single-record run with drop factor 1/2. -/
theorem decline_strictly_positive_witness :
    (3 / 10 ≤ drop_factors (Draws.mk (n := 1) (fun _ => Sector.Retail)
        (fun _ => 400) (fun _ => 1 / 2)) 0 ∧
      drop_factors (Draws.mk (n := 1) (fun _ => Sector.Retail)
        (fun _ => 400) (fun _ => 1 / 2)) 0 < 1) ∧
    (0 < decline_percent (Draws.mk (n := 1) (fun _ => Sector.Retail)
        (fun _ => 400) (fun _ => 1 / 2)) 0 ∧
      post_covid_revenue (Draws.mk (n := 1) (fun _ => Sector.Retail)
        (fun _ => 400) (fun _ => 1 / 2)) 0 <
        pre_covid_revenue (Draws.mk (n := 1) (fun _ => Sector.Retail)
          (fun _ => 400) (fun _ => 1 / 2)) 0) :=
  ⟨⟨by norm_num [drop_factors], by norm_num [drop_factors]⟩,
    decline_strictly_positive _ 0 (by norm_num [drop_factors])
      (by norm_num [drop_factors])⟩

/-- C10: frame property of the setup step: when the output directory already
exists, the setup step changes nothing — no directory is created and no
creation message is printed. -/
theorem setupOutputDir_frame (fs : FS) (h : output_dir ∈ fs.dirs) :
    setupOutputDir fs = fs := by
  unfold setupOutputDir
  rw [if_neg (not_not_intro h)]

/-- Witness for C10 on a state whose directory list already holds
`output_images`. -/
theorem setupOutputDir_frame_witness :
    output_dir ∈ (FS.mk [output_dir] []).dirs ∧
      setupOutputDir (FS.mk [output_dir] []) = FS.mk [output_dir] [] :=
  ⟨List.mem_cons_self _ _,
    setupOutputDir_frame (FS.mk [output_dir] []) (List.mem_cons_self _ _)⟩

end CovidImpact
